import Mathlib

/-!
Verification of the barcode batch generator's core pipeline
(`src/main/main.ts`): code classification, validation, per-item rendering
dispatch, EPS conversion, batch bookkeeping, archive assembly, and the
preview handler's temp-file discipline.

The TypeScript source is shallowly embedded: pure functions become Lean
functions; the external `bwip-js` rendering capability and the filesystem
read-back of the preview handler are abstracted as explicit parameters
(`BwipCapability`, an `Except`-valued read result); JS strings are Lean
`String`s and the ASCII whitespace class of `\s` / `trim` is modelled by
`jsWhitespace`.
-/

/-- Bytes produced by the raster renderer (`bwipjs.toBuffer`). -/
abbrev ByteData := List Nat

/-- Whitespace as matched by the JS `\s` class and `String.prototype.trim`
(ASCII subset; the Unicode extras never occur in the claims). -/
def jsWhitespace (c : Char) : Bool :=
  c == ' ' || c == '\t' || c == '\n' || c == '\r' || c == '\x0b' || c == '\x0c'

/-- Embedding of `String(code).trim()`: strip leading and trailing whitespace. -/
def jsTrim (s : String) : String :=
  ⟨((s.data.dropWhile jsWhitespace).reverse.dropWhile jsWhitespace).reverse⟩

/-- Embedding of `code.replace(/\s+/g, '')`: remove every whitespace character. -/
def stripWhitespace (s : String) : String :=
  ⟨s.data.filter (fun c => !jsWhitespace c)⟩

/-- Embedding of the test `/^\d+$/.test(code)`: nonempty and all ASCII digits. -/
def isDigitString (s : String) : Bool :=
  !s.data.isEmpty && s.data.all (fun c => c.isDigit)

/-- The accepted-length rule of a symbology: `length` in `BARCODE_CONFIGS` is
either a plain number (`itf14`) or an array (`ean13`). -/
inductive LengthRule where
  | exact (n : Nat)
  | oneOf (ns : List Nat)
deriving DecidableEq

/-- One entry of `BARCODE_CONFIGS`: renderer identifier, length rule, and the
symbology-specific border options spread into the bwip option object. -/
structure BarcodeConfig where
  bcid : String
  lengthRule : LengthRule
  bordertop : Option Nat
  borderbottom : Option Nat
  borderleft : Option Nat
  borderright : Option Nat
deriving DecidableEq

/-- The `itf14` entry of `BARCODE_CONFIGS`. -/
def itf14Config : BarcodeConfig :=
  { bcid := "interleaved2of5", lengthRule := .exact 14,
    bordertop := some 8, borderbottom := some 8,
    borderleft := some 8, borderright := some 8 }

/-- The `ean13` entry of `BARCODE_CONFIGS`. -/
def ean13Config : BarcodeConfig :=
  { bcid := "ean13", lengthRule := .oneOf [12, 13],
    bordertop := none, borderbottom := none,
    borderleft := none, borderright := none }

/-- Embedding of the `BARCODE_CONFIGS` object: key lookup on the type name. -/
def BARCODE_CONFIGS (type : String) : Option BarcodeConfig :=
  if type = "itf14" then some itf14Config
  else if type = "ean13" then some ean13Config
  else none

/-- Embedding of `detectBarcodeType` (main.ts:34-41): all-digit strings of
length 14 are `itf14`, of length 12 or 13 are `ean13`, everything else is
unrecognized. -/
def detectBarcodeType (code : String) : Option String :=
  if !isDigitString code then none
  else if code.length = 14 then some "itf14"
  else if [12, 13].contains code.length then some "ean13"
  else none

/-- Embedding of `validateCode` (main.ts:46-57): re-checks the digit rule,
looks the symbology up in `BARCODE_CONFIGS`, and compares the code length
against the entry's length rule. -/
def validateCode (code type : String) : Bool :=
  if !isDigitString code then false
  else
    match BARCODE_CONFIGS type with
    | none => false
    | some config =>
      match config.lengthRule with
      | .exact n => code.length == n
      | .oneOf ns => ns.contains code.length

/-- The combined rejection test `!type || !validateCode(code, type)` used by
both request handlers on a cleaned code. -/
def batchRejects (code : String) : Bool :=
  match detectBarcodeType code with
  | none => true
  | some type => !validateCode code type

/-- One `<rect ... x=".." y=".." width=".." height=".." fill="..">` element as
extracted by the regex in `convertSVGRectsToPS`; the numeric attributes are the
already-parsed coordinates (bwip-js emits integer coordinates). -/
structure SVGRect where
  x : Nat
  y : Nat
  width : Nat
  height : Nat
  fill : String
deriving DecidableEq

/-- The pieces of the SVG markup that the EPS converter's regexes read: the
`width="…"`/`height="…"` attributes (absent when the regex does not match) and
the rect elements in document order. -/
structure SVGDoc where
  widthAttr : Option Nat
  heightAttr : Option Nat
  rects : List SVGRect
deriving DecidableEq

/-- The option object built inside `generateBarcodeWithBwip` and passed to the
bwip-js capability. -/
structure BwipOptions where
  bcid : String
  text : String
  scale : Nat
  height : Nat
  includetext : Bool
  textxalign : String
  textyalign : String
  textyoffset : Nat
  textsize : Nat
  guardwhitespace : Bool
  paddingwidth : Nat
  paddingheight : Nat
  barcolor : String
  backgroundcolor : String
  bordertop : Option Nat
  borderbottom : Option Nat
  borderleft : Option Nat
  borderright : Option Nat
deriving DecidableEq

/-- The argument object of `generateBarcodeWithBwip`. -/
structure GenRequest where
  code : String
  type : String
  heightMM : Nat
  widthMM : Nat
  outPath : String
  fileFormat : String
deriving DecidableEq

/-- Builds the bwip option object (main.ts:77-93); `heightMM / 3` is JS float
division, approximated by Nat division — no claim depends on this field. -/
def mkBwipOptions (config : BarcodeConfig) (req : GenRequest) : BwipOptions :=
  { bcid := config.bcid, text := req.code,
    scale := max 3 req.widthMM, height := max 20 (req.heightMM / 3),
    includetext := true, textxalign := "center", textyalign := "below",
    textyoffset := 5, textsize := 12, guardwhitespace := true,
    paddingwidth := 20, paddingheight := 30,
    barcolor := "000000", backgroundcolor := "FFFFFF",
    bordertop := config.bordertop, borderbottom := config.borderbottom,
    borderleft := config.borderleft, borderright := config.borderright }

/-- The external bwip-js rendering capability: `toSVG` yields the markup (seen
through the converter's regexes as an `SVGDoc`), `toBuffer` yields PNG bytes;
either can fail with a message. -/
structure BwipCapability where
  toSVG : BwipOptions → Except String SVGDoc
  toBuffer : BwipOptions → Except String ByteData

/-- Content written to the output file by `generateBarcodeWithBwip`. -/
inductive FileContent where
  | svg (doc : SVGDoc)
  | eps (text : String)
  | png (bytes : ByteData)
deriving DecidableEq

/-- Embedding of `outPath.replace(/\.[^.]+$/, ext)`: when the path has a final
dot followed by at least one non-dot character, that extension segment is
replaced; otherwise the path is returned unchanged. -/
def replaceExt (p ext : String) : String :=
  let r := p.data.reverse
  let tail := r.takeWhile (fun c => c ≠ '.')
  if tail.length < r.length ∧ tail ≠ [] then
    String.mk (((r.drop tail.length).drop 1).reverse) ++ ext
  else p

/-- Embedding of the loop body of `convertSVGRectsToPS`: the PostScript drawing
call `${x} ${y} ${width} ${height} rectfill` emitted for one rectangle. -/
def rectToPS (r : SVGRect) : String :=
  toString r.x ++ " " ++ toString r.y ++ " " ++ toString r.width ++ " " ++
    toString r.height ++ " rectfill"

/-- The fill test of `convertSVGRectsToPS` (main.ts:184): only the case-sensitive
literals `#000000`, `black`, `#000` are kept. -/
def isBlackFill (r : SVGRect) : Bool :=
  r.fill == "#000000" || r.fill == "black" || r.fill == "#000"

/-- Embedding of `convertSVGRectsToPS` (main.ts:171-196): keep only black-filled
rectangles, translate each to a `rectfill` call, and when any survived prepend
the two `rectfill`-definition prologue lines. -/
def convertSVGRectsToPS (rects : List SVGRect) : List String :=
  let commands := rects.filterMap (fun r =>
    if isBlackFill r then some (rectToPS r) else none)
  if commands.length > 0 then
    "/rectfill { 4 2 roll moveto 1 index 0 rlineto 0 exch rlineto neg 0 rlineto closepath fill } def"
      :: "% Define rectfill function" :: commands
  else commands

/-- Embedding of `eps.join('\n')` over the line array of `convertSVGToEPS`. -/
def joinLines : List String → String
  | [] => ""
  | [s] => s
  | s :: rest => s ++ "\n" ++ joinLines rest

/-- The line array built by `convertSVGToEPS` (main.ts:144-163), with the
defaults 300 and 100 when the width/height attribute regexes do not match. -/
def epsLines (doc : SVGDoc) (code : String) : List String :=
  ["%!PS-Adobe-3.0 EPSF-3.0",
   "%%Title: Barcode " ++ code,
   "%%Creator: Barcode Batch Generator",
   "%%BoundingBox: 0 0 " ++ toString (doc.widthAttr.getD 300) ++ " " ++
     toString (doc.heightAttr.getD 100),
   "%%EndComments",
   "",
   "/Times-Roman findfont 12 scalefont setfont",
   "0 setgray",
   "",
   "% Barcode generation from SVG",
   "% This is a simplified EPS conversion",
   "% Original barcode: " ++ code,
   ""]
  ++ convertSVGRectsToPS doc.rects
  ++ ["", "showpage", "%%EOF"]

/-- Embedding of `convertSVGToEPS` (main.ts:137-166). -/
def convertSVGToEPS (doc : SVGDoc) (code : String) : String :=
  joinLines (epsLines doc code)

/-- Embedding of `generateBarcodeWithBwip` (main.ts:62-132): looks up the
symbology configuration, dispatches on the requested file format, and either
resolves with the final path and written content or rejects with the branch's
error message. The filesystem write is modelled by returning the content. -/
def generateBarcodeWithBwip (cap : BwipCapability) (req : GenRequest) :
    Except String (String × FileContent) :=
  match BARCODE_CONFIGS req.type with
  | none => .error ("바코드 생성 실패: " ++ "지원하지 않는 바코드 타입: " ++ req.type)
  | some config =>
    let opts := mkBwipOptions config req
    if req.fileFormat == "svg" then
      match cap.toSVG opts with
      | .ok doc => .ok (replaceExt req.outPath ".svg", .svg doc)
      | .error m => .error ("SVG 바코드 생성 실패: " ++ m)
    else if req.fileFormat == "eps" then
      match cap.toSVG opts with
      | .ok doc => .ok (replaceExt req.outPath ".eps", .eps (convertSVGToEPS doc req.code))
      | .error m => .error ("EPS 바코드 생성 실패: " ++ m)
    else
      match cap.toBuffer opts with
      | .ok png => .ok (replaceExt req.outPath ".png", .png png)
      | .error m => .error ("PNG 바코드 생성 실패: " ++ m)

/-- A per-item failure record `{code, reason}` pushed into `failedCodes`. -/
structure FailureRec where
  code : String
  reason : String
deriving DecidableEq

/-- The reason text recorded for a code that fails classification/validation. -/
def invalidDataReason : String :=
  "유효하지 않은 데이터 (14자리: ITF-14, 12~13자리: EAN-13)"

/-- Embedding of the per-item body of the `/generate-batch` `Promise.all` loop
(main.ts:289-310): strip whitespace, classify, validate, render; a success
carries the archive filename and the written content, a failure carries the
(already trimmed) raw code and a reason. -/
def processCode (cap : BwipCapability) (format pfx ext : String) (h w : Nat)
    (rawCode : String) : Except FailureRec (String × FileContent) :=
  let code := stripWhitespace rawCode
  match detectBarcodeType code with
  | none => .error { code := rawCode, reason := invalidDataReason }
  | some type =>
    if !validateCode code type then
      .error { code := rawCode, reason := invalidDataReason }
    else
      let filename := pfx ++ code ++ ext
      match generateBarcodeWithBwip cap
          { code := code, type := type, heightMM := h, widthMM := w,
            outPath := filename, fileFormat := format } with
      | .ok result => .ok (filename, result.2)
      | .error e => .error { code := rawCode, reason := e }

/-- The fan-out over the cleaned code list: every item contributes exactly one
outcome to one of the two collection buffers. The JS `Promise.all` completes in
an unspecified order; the model fixes input order, which no claim depends on
(the claims concern counts, membership, and per-item contents). -/
def runBatchItems (cap : BwipCapability) (format pfx ext : String) (h w : Nat) :
    List String → List (String × FileContent) × List FailureRec
  | [] => ([], [])
  | rawCode :: rest =>
    let acc := runBatchItems cap format pfx ext h w rest
    match processCode cap format pfx ext h w rawCode with
    | .ok success => (success :: acc.1, acc.2)
    | .error failure => (acc.1, failure :: acc.2)

/-- The `report.json` object (main.ts:333-345); `generationDate` is wall-clock
time, passed in as a parameter. -/
structure BatchReport where
  generationDate : String
  note : String
  heightMM : Nat
  widthMM : Nat
  fileFormat : String
  filenamePrefix : String
  successCount : Nat
  errorCount : Nat
  errors : List FailureRec
deriving DecidableEq

/-- Content of one archive entry: a streamed barcode file or the appended
JSON report. -/
inductive EntryContent where
  | file (content : FileContent)
  | report (rep : BatchReport)
deriving DecidableEq

/-- One entry of the produced zip archive. -/
structure ArchiveEntry where
  name : String
  content : EntryContent
deriving DecidableEq

/-- The response of the `/generate-batch` handler: a 400 input error, the
400 total-failure error carrying the failure details, or the archive stream. -/
inductive BatchResponse where
  | inputError (error : String)
  | batchExhausted (error : String) (details : List FailureRec)
  | archive (entries : List ArchiveEntry)
deriving DecidableEq

/-- The request body of `/generate-batch`; absent optional fields are `none`. -/
structure BatchRequest where
  barcodeNumbers : List String
  heightMM : Option Nat
  widthMM : Option Nat
  filenamePrefix : Option String
  fileFormat : Option String
deriving DecidableEq

/-- JS `Number(v) || d`: an absent value or 0 falls back to the default. -/
def numOr (v : Option Nat) (d : Nat) : Nat :=
  match v with
  | none => d
  | some n => if n = 0 then d else n

/-- JS `v || d` on strings: absent or empty falls back to the default. -/
def strOr (v : Option String) (d : String) : String :=
  match v with
  | none => d
  | some s => if s = "" then d else s

/-- `const codes = barcodeNumbers.map(c => String(c).trim()).filter(Boolean)`. -/
def batchCodes (req : BatchRequest) : List String :=
  (req.barcodeNumbers.map jsTrim).filter (fun c => c != "")

/-- `const format = fileFormat || 'png'`. -/
def batchFormat (req : BatchRequest) : String :=
  strOr req.fileFormat "png"

/-- The extension chosen from the format (main.ts:287). -/
def batchExt (req : BatchRequest) : String :=
  if batchFormat req == "svg" then ".svg"
  else if batchFormat req == "eps" then ".eps"
  else ".png"

/-- `const h = Number(heightMM) || 32`. -/
def batchH (req : BatchRequest) : Nat := numOr req.heightMM 32

/-- `const w = Number(widthMM) || 2`. -/
def batchW (req : BatchRequest) : Nat := numOr req.widthMM 2

/-- `filenamePrefix || ''`. -/
def batchPfx (req : BatchRequest) : String := strOr req.filenamePrefix ""

/-- The two collection buffers after the `Promise.all` barrier. -/
def batchRun (cap : BwipCapability) (req : BatchRequest) :
    List (String × FileContent) × List FailureRec :=
  runBatchItems cap (batchFormat req) (batchPfx req) (batchExt req)
    (batchH req) (batchW req) (batchCodes req)

/-- Builds the `report` object appended as `report.json`. -/
def mkReport (gd : String) (req : BatchRequest) (succCount errCount : Nat)
    (errors : List FailureRec) : BatchReport :=
  { generationDate := gd,
    note := "바코드 종류는 자동으로 감지됩니다 (14자리: ITF-14, 12~13자리: EAN-13)",
    heightMM := batchH req, widthMM := batchW req,
    fileFormat := batchFormat req, filenamePrefix := batchPfx req,
    successCount := succCount, errorCount := errCount, errors := errors }

/-- Embedding of the `/generate-batch` handler (main.ts:260-360): input checks,
fan-out, the total-failure branch, and archive assembly (each successful file
under its bare filename, then one `report.json`). -/
def generateBatch (cap : BwipCapability) (gd : String) (req : BatchRequest) :
    BatchResponse :=
  if req.barcodeNumbers.isEmpty then
    .inputError "바코드 번호가 제공되지 않았습니다."
  else if (batchCodes req).isEmpty then
    .inputError "유효한 바코드 번호를 입력해주세요."
  else
    let r := batchRun cap req
    if r.1.isEmpty then
      .batchExhausted "생성된 바코드가 없습니다. 데이터나 옵션을 확인하세요." r.2
    else
      .archive ((r.1.map (fun s => ArchiveEntry.mk s.1 (.file s.2)))
        ++ [ArchiveEntry.mk "report.json" (.report (mkReport gd req r.1.length r.2.length r.2))])

/-- The request body of `/preview-barcode`. -/
structure PreviewReq where
  code : Option String
  heightMM : Option Nat
  widthMM : Option Nat
  fileFormat : Option String
deriving DecidableEq

/-- The response of the `/preview-barcode` handler. The base64 payloads of the
data URIs are abstracted by fixed placeholder strings; no claim concerns them. -/
inductive PreviewResp where
  | badRequest (error : String)
  | serverError (error : String)
  | success (image code type format : String)
deriving DecidableEq

/-- The 400 message for an unclassifiable or invalid preview code. -/
def invalidPreviewMsg : String :=
  "유효하지 않은 바코드 번호입니다. (14자리: ITF-14, 12~13자리: EAN-13)"

/-- `const cleanCode = code.trim().replace(/\s+/g, '')` of the preview handler. -/
def previewClean (raw : String) : String := stripWhitespace (jsTrim raw)

/-- `const format = fileFormat || 'png'` of the preview handler. -/
def previewFormat (req : PreviewReq) : String := strOr req.fileFormat "png"

/-- The preview extension chosen from the format (main.ts:227). -/
def previewExt (req : PreviewReq) : String :=
  if previewFormat req == "svg" then ".svg"
  else if previewFormat req == "eps" then ".eps"
  else ".png"

/-- The unique temp filename `preview_${cleanCode}_${Date.now()}${extension}`. -/
def previewFilename (req : PreviewReq) (raw : String) (now : Nat) : String :=
  "preview_" ++ previewClean raw ++ "_" ++ toString now ++ previewExt req

/-- Embedding of the `/preview-barcode` handler (main.ts:207-257). The second
component of the result records whether the temporary preview file still exists
when the handler returns: the file comes into existence when
`generateBarcodeWithBwip` resolves, and the only delete is the `unlinkSync`
on the success path after the read-back. `readResult` abstracts the
`readFileSync` of the freshly written file (the EPS branch performs no
read-back); `now` abstracts `Date.now()` in the temp filename. -/
def previewHandler (cap : BwipCapability) (readResult : Except String Unit)
    (req : PreviewReq) (now : Nat) : PreviewResp × Bool :=
  match req.code with
  | none => (.badRequest "바코드 번호를 입력해주세요.", false)
  | some raw =>
    if jsTrim raw == "" then (.badRequest "바코드 번호를 입력해주세요.", false)
    else
      match detectBarcodeType (previewClean raw) with
      | none => (.badRequest invalidPreviewMsg, false)
      | some type =>
        if !validateCode (previewClean raw) type then (.badRequest invalidPreviewMsg, false)
        else
          match generateBarcodeWithBwip cap
              { code := previewClean raw, type := type,
                heightMM := numOr req.heightMM 32, widthMM := numOr req.widthMM 2,
                outPath := previewFilename req raw now,
                fileFormat := previewFormat req } with
          | .error m => (.serverError ("바코드 생성 실패: " ++ m), false)
          | .ok _ =>
            if previewFormat req == "svg" then
              match readResult with
              | .error m => (.serverError ("바코드 생성 실패: " ++ m), true)
              | .ok _ =>
                (.success "data:image/svg+xml;base64,(svg)" (previewClean raw)
                  type.toUpper (previewFormat req).toUpper, false)
            else if previewFormat req == "eps" then
              (.success "data:text/plain;base64,(eps-placeholder)" (previewClean raw)
                type.toUpper (previewFormat req).toUpper, false)
            else
              match readResult with
              | .error m => (.serverError ("바코드 생성 실패: " ++ m), true)
              | .ok _ =>
                (.success "data:image/png;base64,(png)" (previewClean raw)
                  type.toUpper (previewFormat req).toUpper, false)

/-- Modelled from the spec: the "secondary fallback raster renderer using a
generic linear-symbology algorithm ... with fixed visual parameters (fixed
canvas size, margin, colors)" that §4.3 step 2 (PNG) describes. No such
renderer exists anywhere in the repository source; this total function (it
"always succeeds structurally") exists only so the PNG-fallback claim can be
stated against the code. -/
def specFallbackRaster (text : String) : ByteData :=
  List.replicate 10 255 ++ text.data.map (fun c => c.toNat % 2 * 255)
    ++ List.replicate 10 255

/-- A rendering capability whose every call succeeds: `toSVG` yields a small
document with one black and one white rectangle, `toBuffer` yields one byte. -/
def constOkCap : BwipCapability :=
  { toSVG := fun _ => .ok
      { widthAttr := some 300, heightAttr := some 100,
        rects := [{ x := 10, y := 0, width := 2, height := 50, fill := "#000000" },
                  { x := 0, y := 0, width := 300, height := 100, fill := "#FFFFFF" }] },
    toBuffer := fun _ => .ok [0] }

/-- A rendering capability whose raster path always fails with message `boom`
while the vector path succeeds. -/
def failBufCap : BwipCapability :=
  { toSVG := fun _ => .ok { widthAttr := none, heightAttr := none, rects := [] },
    toBuffer := fun _ => .error "boom" }

/-- A concrete PNG render request for a valid ITF-14 code. -/
def pngReqC1 : GenRequest :=
  { code := "12345678901234", type := "itf14", heightMM := 32, widthMM := 2,
    outPath := "out.png", fileFormat := "png" }

/-- A concrete EPS render request for a valid EAN-13 code. -/
def epsReqC6 : GenRequest :=
  { code := "4901234567894", type := "ean13", heightMM := 32, widthMM := 2,
    outPath := "out.eps", fileFormat := "eps" }

/-- The document `constOkCap.toSVG` returns, for instantiating the EPS claim. -/
def docC6 : SVGDoc :=
  { widthAttr := some 300, heightAttr := some 100,
    rects := [{ x := 10, y := 0, width := 2, height := 50, fill := "#000000" },
              { x := 0, y := 0, width := 300, height := 100, fill := "#FFFFFF" }] }

/-- A batch request with one valid 14-digit code and default options. -/
def batchReqOneOk : BatchRequest :=
  { barcodeNumbers := ["12345678901234"], heightMM := none, widthMM := none,
    filenamePrefix := none, fileFormat := none }

/-- A batch request whose only item is invalid. -/
def batchReqAllFail : BatchRequest :=
  { barcodeNumbers := ["abc"], heightMM := none, widthMM := none,
    filenamePrefix := none, fileFormat := none }

/-- A batch request whose only item carries surrounding and interior
whitespace and is invalid after cleaning. -/
def batchReqWs : BatchRequest :=
  { barcodeNumbers := [" 1 2 "], heightMM := none, widthMM := none,
    filenamePrefix := none, fileFormat := none }

/-- Boolean test that a line is one of the emitted `rectfill` drawing calls:
it ends with the literal `" rectfill"`. -/
def endsRectfill (s : String) : Bool :=
  decide ((" rectfill" : String).data <:+ s.data)

/-- A preview request for a valid ITF-14 code with default options. -/
def previewReqOk : PreviewReq :=
  { code := some "12345678901234", heightMM := none, widthMM := none,
    fileFormat := none }

theorem isDigitString_iff (s : String) :
    isDigitString s = true ↔ s.data ≠ [] ∧ s.data.all (fun c => c.isDigit) = true := by
  simp [isDigitString, List.isEmpty_iff]

theorem contains_1213 (n : Nat) : ([12, 13].contains n = true) ↔ (n = 12 ∨ n = 13) := by
  rw [List.elem_iff]
  simp

theorem digits_of_len (s : String) (h : ¬ s.length = 0)
    (hall : s.data.all (fun c => c.isDigit) = true) : isDigitString s = true := by
  rw [isDigitString_iff]
  refine ⟨?_, hall⟩
  intro hnil
  apply h
  show s.data.length = 0
  simp [hnil]

theorem detect_itf14_iff (s : String) :
    detectBarcodeType s = some "itf14" ↔
      s.data.all (fun c => c.isDigit) = true ∧ s.length = 14 := by
  unfold detectBarcodeType
  by_cases hD : isDigitString s
  · have hall : s.data.all (fun c => c.isDigit) = true := ((isDigitString_iff s).mp hD).2
    by_cases h14 : s.length = 14
    · simp [hD, h14, hall]
    · by_cases h1213 : [12, 13].contains s.length = true
      · simp [hD, h14, h1213, hall]
      · simp [hD, h14, h1213, hall]
  · constructor
    · intro h
      simp [hD] at h
    · rintro ⟨hall, h14⟩
      exact absurd (digits_of_len s (by omega) hall) hD

theorem detect_ean13_iff (s : String) :
    detectBarcodeType s = some "ean13" ↔
      s.data.all (fun c => c.isDigit) = true ∧ (s.length = 12 ∨ s.length = 13) := by
  unfold detectBarcodeType
  by_cases hD : isDigitString s
  · have hall : s.data.all (fun c => c.isDigit) = true := ((isDigitString_iff s).mp hD).2
    by_cases h14 : s.length = 14
    · simp [hD, h14, hall]
    · by_cases h1213 : [12, 13].contains s.length = true
      · simp [hD, h14, h1213, hall, (contains_1213 s.length).mp h1213]
      · have hn : ¬ (s.length = 12 ∨ s.length = 13) :=
          fun h => h1213 ((contains_1213 s.length).mpr h)
        simp [hD, h14, h1213, hall, hn]
  · constructor
    · intro h
      simp [hD] at h
    · rintro ⟨hall, h⟩
      exact absurd (digits_of_len s (by omega) hall) hD

theorem detect_none_iff (s : String) :
    detectBarcodeType s = none ↔
      ¬(s.data.all (fun c => c.isDigit) = true ∧
        (s.length = 14 ∨ s.length = 12 ∨ s.length = 13)) := by
  unfold detectBarcodeType
  by_cases hD : isDigitString s
  · have hall : s.data.all (fun c => c.isDigit) = true := ((isDigitString_iff s).mp hD).2
    by_cases h14 : s.length = 14
    · simp [hD, h14, hall]
    · by_cases h1213 : [12, 13].contains s.length = true
      · have h' := (contains_1213 s.length).mp h1213
        simp [hD, h14, h1213, hall]
      · have hn : ¬ (s.length = 12 ∨ s.length = 13) :=
          fun h => h1213 ((contains_1213 s.length).mpr h)
        simp [hD, h14, h1213, hall]
  · constructor
    · intro _
      rintro ⟨hall, h⟩
      exact absurd (digits_of_len s (by omega) hall) hD
    · intro _
      simp [hD]

theorem validate_true_iff (code type : String) :
    validateCode code type = true ↔
      isDigitString code = true ∧
        ((type = "itf14" ∧ code.length = 14) ∨
         (type = "ean13" ∧ (code.length = 12 ∨ code.length = 13))) := by
  unfold validateCode BARCODE_CONFIGS
  by_cases hD : isDigitString code
  · by_cases hI : type = "itf14"
    · simp [hD, hI, itf14Config]
    · by_cases hE : type = "ean13"
      · simp [hD, hI, hE, ean13Config, contains_1213]
      · simp [hD, hI, hE]
  · simp [hD]

theorem detect_implies_validate (s t : String) (h : detectBarcodeType s = some t) :
    validateCode s t = true := by
  by_cases hD : isDigitString s
  · have hall : s.data.all (fun c => c.isDigit) = true := ((isDigitString_iff s).mp hD).2
    unfold detectBarcodeType at h
    by_cases h14 : s.length = 14
    · simp [hD, h14] at h
      exact (validate_true_iff s t).mpr ⟨hD, Or.inl ⟨h.symm, h14⟩⟩
    · simp [hD, h14] at h
      exact (validate_true_iff s t).mpr ⟨hD, Or.inr ⟨h.2.symm, h.1⟩⟩
  · unfold detectBarcodeType at h
    simp [hD] at h

/-- C3: `detectBarcodeType` returns `itf14` exactly for all-ASCII-digit strings
of length 14, `ean13` exactly for all-digit strings of length 12 or 13, and
`none` for every other string (any non-digit character, any other length
including 0). It is a Lean function, hence deterministic and total, and its
embedding has no failure outcome, matching "never throws". -/
theorem claim_classify_length_rules (s : String) :
    (detectBarcodeType s = some "itf14" ↔
      s.data.all (fun c => c.isDigit) = true ∧ s.length = 14) ∧
    (detectBarcodeType s = some "ean13" ↔
      s.data.all (fun c => c.isDigit) = true ∧ (s.length = 12 ∨ s.length = 13)) ∧
    (detectBarcodeType s = none ↔
      ¬(s.data.all (fun c => c.isDigit) = true ∧
        (s.length = 14 ∨ s.length = 12 ∨ s.length = 13))) :=
  ⟨detect_itf14_iff s, detect_ean13_iff s, detect_none_iff s⟩

/-- C4: whenever the classifier's verdict differs from the symbology argument —
including unknown symbologies and codes that match some other symbology's
length rule — `validateCode` returns false. Totality ("never throws") is
inherent in the embedding. -/
theorem claim_validate_false_on_classifier_mismatch (code type : String)
    (h : detectBarcodeType code ≠ some type) : validateCode code type = false := by
  cases hv : validateCode code type
  · rfl
  · exfalso
    obtain ⟨hD, hcase⟩ := (validate_true_iff code type).mp hv
    have hall := ((isDigitString_iff code).mp hD).2
    rcases hcase with ⟨ht, hlen⟩ | ⟨ht, hlen⟩
    · exact h (by rw [ht]; exact (detect_itf14_iff code).mpr ⟨hall, hlen⟩)
    · exact h (by rw [ht]; exact (detect_ean13_iff code).mpr ⟨hall, hlen⟩)

/-- Witness for C4: a 12-digit code matches the EAN-13 length rule, is not
classified as `itf14`, and indeed fails validation against `itf14`. -/
theorem claim_validate_false_on_classifier_mismatch_witness :
    detectBarcodeType "123456789012" ≠ some "itf14" ∧
      validateCode "123456789012" "itf14" = false :=
  ⟨by decide,
    claim_validate_false_on_classifier_mismatch "123456789012" "itf14" (by decide)⟩

/-- C10: whatever symbology the classifier returns passes validation, so the
combined handler check `!type || !validateCode(code, type)` (embedded as
`batchRejects`) rejects a cleaned code exactly when classification returns
`none`. -/
theorem claim_classifier_output_validates (s : String) :
    (∀ t, detectBarcodeType s = some t → validateCode s t = true) ∧
      (batchRejects s = true ↔ detectBarcodeType s = none) := by
  refine ⟨fun t ht => detect_implies_validate s t ht, ?_⟩
  unfold batchRejects
  cases hdet : detectBarcodeType s with
  | none => simp
  | some t => simp [detect_implies_validate s t hdet]

/-- Witness for C10 at a concrete classified code. -/
theorem claim_classifier_output_validates_witness :
    detectBarcodeType "12345678901234" = some "itf14" ∧
      validateCode "12345678901234" "itf14" = true :=
  ⟨by decide, (claim_classifier_output_validates "12345678901234").1 "itf14" (by decide)⟩

theorem runBatchItems_length (cap : BwipCapability) (format pfx ext : String)
    (h w : Nat) (codes : List String) :
    (runBatchItems cap format pfx ext h w codes).1.length
      + (runBatchItems cap format pfx ext h w codes).2.length = codes.length := by
  induction codes with
  | nil => rfl
  | cons c rest ih =>
    simp only [runBatchItems]
    cases hp : processCode cap format pfx ext h w c <;> simp [hp] <;> omega

theorem processCode_error_code (cap : BwipCapability) (format pfx ext : String)
    (h w : Nat) (raw : String) (f : FailureRec)
    (he : processCode cap format pfx ext h w raw = .error f) : f.code = raw := by
  simp only [processCode] at he
  split at he
  · cases he
    rfl
  · split at he
    · cases he
      rfl
    · split at he
      · cases he
      · cases he
        rfl

theorem processCode_ok_name (cap : BwipCapability) (format pfx ext : String)
    (h w : Nat) (raw : String) (x : String × FileContent)
    (he : processCode cap format pfx ext h w raw = .ok x) :
    x.1 = pfx ++ stripWhitespace raw ++ ext := by
  simp only [processCode] at he
  split at he
  · cases he
  · split at he
    · cases he
    · split at he
      · cases he
        rfl
      · cases he

theorem string_data_append (a b : String) : (a ++ b).data = a.data ++ b.data := rfl

theorem runBatchItems_fail_mem (cap : BwipCapability) (format pfx ext : String)
    (h w : Nat) (codes : List String) (f : FailureRec)
    (hf : f ∈ (runBatchItems cap format pfx ext h w codes).2) : f.code ∈ codes := by
  induction codes with
  | nil => simp [runBatchItems] at hf
  | cons c rest ih =>
    simp only [runBatchItems] at hf
    cases hp : processCode cap format pfx ext h w c with
    | error fr =>
      rw [hp] at hf
      simp only [List.mem_cons] at hf
      rcases hf with rfl | hf
      · rw [processCode_error_code cap format pfx ext h w c f hp]
        exact List.mem_cons_self c rest
      · exact List.mem_cons_of_mem c (ih hf)
    | ok s =>
      rw [hp] at hf
      exact List.mem_cons_of_mem c (ih hf)

theorem runBatchItems_success_mem (cap : BwipCapability) (format pfx ext : String)
    (h w : Nat) (codes : List String) (x : String × FileContent)
    (hx : x ∈ (runBatchItems cap format pfx ext h w codes).1) :
    ∃ c, x.1 = pfx ++ c ++ ext := by
  induction codes with
  | nil => simp [runBatchItems] at hx
  | cons c rest ih =>
    simp only [runBatchItems] at hx
    cases hp : processCode cap format pfx ext h w c with
    | error fr =>
      rw [hp] at hx
      exact ih hx
    | ok s =>
      rw [hp] at hx
      simp only [List.mem_cons] at hx
      rcases hx with rfl | hx
      · exact ⟨stripWhitespace c, processCode_ok_name cap format pfx ext h w c x hp⟩
      · exact ih hx

theorem batchExt_cases (req : BatchRequest) :
    batchExt req = ".svg" ∨ batchExt req = ".eps" ∨ batchExt req = ".png" := by
  unfold batchExt
  by_cases h1 : batchFormat req == "svg" <;> by_cases h2 : batchFormat req == "eps" <;>
    simp [h1, h2]

theorem batchRun_success_name (cap : BwipCapability) (req : BatchRequest)
    (x : String × FileContent) (hx : x ∈ (batchRun cap req).1) :
    ¬ x.1 = "report.json" := by
  obtain ⟨c, hc⟩ := runBatchItems_success_mem cap (batchFormat req) (batchPfx req)
    (batchExt req) (batchH req) (batchW req) (batchCodes req) x hx
  intro hEq
  have hsuf : (batchExt req).data <:+ ("report.json" : String).data := by
    rw [← hEq, hc]
    exact ⟨(batchPfx req ++ c).data, (string_data_append _ _).symm⟩
  rcases batchExt_cases req with he | he | he <;> rw [he] at hsuf <;> revert hsuf <;> decide

/-- C2: in a batch run, the number of collected successes plus collected
failures equals the number of input entries that are non-empty after trimming;
each non-empty item (duplicates included) contributes exactly one outcome and
none is dropped. -/
theorem claim_batch_outcome_count (cap : BwipCapability) (req : BatchRequest) :
    (batchRun cap req).1.length + (batchRun cap req).2.length
      = req.barcodeNumbers.countP (fun c => jsTrim c != "") := by
  unfold batchRun batchCodes
  rw [runBatchItems_length, ← List.countP_eq_length_filter, List.countP_map]
  rfl

/-- C5: when every non-empty item of a batch fails (zero successes), the
handler produces no archive but the batch-level error that carries the full
failure list — one record per failed item. -/
theorem claim_total_failure_error (cap : BwipCapability) (gd : String)
    (req : BatchRequest)
    (hne : req.barcodeNumbers ≠ [])
    (hcodes : batchCodes req ≠ [])
    (hfail : (batchRun cap req).1 = []) :
    generateBatch cap gd req
      = .batchExhausted "생성된 바코드가 없습니다. 데이터나 옵션을 확인하세요."
          (batchRun cap req).2 ∧
      (batchRun cap req).2.length = (batchCodes req).length := by
  constructor
  · simp only [generateBatch]
    rw [if_neg (by simpa [List.isEmpty_iff] using hne),
        if_neg (by simpa [List.isEmpty_iff] using hcodes)]
    simp [hfail]
  · have hlen := runBatchItems_length cap (batchFormat req) (batchPfx req)
      (batchExt req) (batchH req) (batchW req) (batchCodes req)
    unfold batchRun at hfail
    rw [hfail] at hlen
    simpa using hlen

/-- C8 (amended): every failure record's `code` field equals the trimmed
original raw code (surrounding whitespace removed, interior whitespace
preserved), not the raw code exactly as supplied: the handler's loop runs over
the already-trimmed `codes`, so `rawCode` names the trimmed string. -/
theorem claim8_amended_failure_code_is_trimmed (cap : BwipCapability)
    (req : BatchRequest) (f : FailureRec) (hf : f ∈ (batchRun cap req).2) :
    ∃ raw ∈ req.barcodeNumbers, f.code = jsTrim raw ∧ jsTrim raw ≠ "" := by
  have hmem : f.code ∈ batchCodes req :=
    runBatchItems_fail_mem cap (batchFormat req) (batchPfx req) (batchExt req)
      (batchH req) (batchW req) (batchCodes req) f hf
  unfold batchCodes at hmem
  rw [List.mem_filter] at hmem
  obtain ⟨hmap, hnb⟩ := hmem
  rw [List.mem_map] at hmap
  obtain ⟨raw, hraw, heq⟩ := hmap
  refine ⟨raw, hraw, heq.symm, ?_⟩
  rw [heq]
  simpa using hnb

/-- C7: a batch with at least one success yields an archive holding exactly one
entry per success plus exactly one entry named `report.json`; the report's
`successCount` equals the number of entries other than `report.json` and its
`errorCount` equals the number of failure records. -/
theorem claim7_archive_layout (cap : BwipCapability) (gd : String)
    (req : BatchRequest)
    (hne : req.barcodeNumbers ≠ [])
    (hs : (batchRun cap req).1 ≠ []) :
    ∃ entries rep,
      generateBatch cap gd req = .archive entries ∧
      entries = ((batchRun cap req).1.map (fun s => ArchiveEntry.mk s.1 (.file s.2)))
        ++ [ArchiveEntry.mk "report.json" (.report rep)] ∧
      (entries.filter (fun e => e.name == "report.json")).length = 1 ∧
      rep.successCount = (entries.filter (fun e => e.name != "report.json")).length ∧
      rep.errorCount = (batchRun cap req).2.length := by
  have hcodes : batchCodes req ≠ [] := by
    intro h0
    apply hs
    unfold batchRun
    rw [h0]
    rfl
  have hnames : ∀ e ∈ (batchRun cap req).1.map
      (fun s => ArchiveEntry.mk s.1 (EntryContent.file s.2)), ¬ e.name = "report.json" := by
    intro e he
    rw [List.mem_map] at he
    obtain ⟨x, hx, rfl⟩ := he
    exact batchRun_success_name cap req x hx
  refine ⟨_, mkReport gd req (batchRun cap req).1.length (batchRun cap req).2.length
    (batchRun cap req).2, ?_, rfl, ?_, ?_, rfl⟩
  · simp only [generateBatch]
    rw [if_neg (by simpa [List.isEmpty_iff] using hne),
        if_neg (by simpa [List.isEmpty_iff] using hcodes)]
    rw [if_neg (by simpa [List.isEmpty_iff] using hs)]
  · rw [List.filter_append]
    have h1 : ((batchRun cap req).1.map
        (fun s => ArchiveEntry.mk s.1 (EntryContent.file s.2))).filter
          (fun e => e.name == "report.json") = [] := by
      rw [List.filter_eq_nil_iff]
      intro e he
      simpa using hnames e he
    rw [h1]
    rfl
  · rw [List.filter_append]
    have h1 : ((batchRun cap req).1.map
        (fun s => ArchiveEntry.mk s.1 (EntryContent.file s.2))).filter
          (fun e => e.name != "report.json")
        = (batchRun cap req).1.map (fun s => ArchiveEntry.mk s.1 (EntryContent.file s.2)) := by
      rw [List.filter_eq_self]
      intro e he
      simpa using hnames e he
    rw [h1]
    simp [mkReport]

/-- Witness for C5: the lone code `abc` fails, so the handler reports the
exhaustion error with that single failure record. -/
theorem claim_total_failure_error_witness :
    generateBatch constOkCap "2026-10-11" batchReqAllFail
      = .batchExhausted "생성된 바코드가 없습니다. 데이터나 옵션을 확인하세요."
          (batchRun constOkCap batchReqAllFail).2 ∧
      (batchRun constOkCap batchReqAllFail).2.length
        = (batchCodes batchReqAllFail).length :=
  claim_total_failure_error constOkCap "2026-10-11" batchReqAllFail
    (by decide) (by decide) (by decide)

/-- Witness for C7 at a one-success batch. -/
theorem claim7_archive_layout_witness :
    ∃ entries rep,
      generateBatch constOkCap "2026-10-11" batchReqOneOk = .archive entries ∧
      entries = ((batchRun constOkCap batchReqOneOk).1.map
          (fun s => ArchiveEntry.mk s.1 (.file s.2)))
        ++ [ArchiveEntry.mk "report.json" (.report rep)] ∧
      (entries.filter (fun e => e.name == "report.json")).length = 1 ∧
      rep.successCount = (entries.filter (fun e => e.name != "report.json")).length ∧
      rep.errorCount = (batchRun constOkCap batchReqOneOk).2.length :=
  claim7_archive_layout constOkCap "2026-10-11" batchReqOneOk (by decide) (by decide)

/-- Counterexample for C8 as stated: the caller supplies the raw code
`" 1 2 "`, but the recorded failure carries `"1 2"` (the trimmed form), which
differs from the original raw code. -/
theorem claim8_counterexample :
    generateBatch constOkCap "2026-10-11" batchReqWs
      = .batchExhausted "생성된 바코드가 없습니다. 데이터나 옵션을 확인하세요."
          [{ code := "1 2", reason := invalidDataReason }] ∧
      ("1 2" : String) ≠ " 1 2 " := by
  constructor
  · decide
  · decide

/-- Witness for the amended C8 at the whitespace-carrying input. -/
theorem claim8_amended_witness :
    ∃ raw ∈ batchReqWs.barcodeNumbers,
      (FailureRec.mk "1 2" invalidDataReason).code = jsTrim raw ∧ jsTrim raw ≠ "" :=
  claim8_amended_failure_code_is_trimmed constOkCap batchReqWs
    ⟨"1 2", invalidDataReason⟩ (by decide)

theorem joinLines_cons_cons (a b : String) (l : List String) :
    joinLines (a :: b :: l) = a ++ "\n" ++ joinLines (b :: l) := rfl

theorem joinLines_last_suffix (front : List String) (a : String) :
    a.data <:+ (joinLines (front ++ [a])).data := by
  induction front with
  | nil => exact ⟨[], rfl⟩
  | cons x front ih =>
    rcases hfa : front ++ [a] with _ | ⟨b, t⟩
    · exact absurd hfa (by simp)
    · rw [List.cons_append, hfa, joinLines_cons_cons]
      rw [hfa] at ih
      obtain ⟨t1, ht1⟩ := ih
      refine ⟨(x ++ "\n").data ++ t1, ?_⟩
      rw [List.append_assoc, ht1]
      exact (string_data_append _ _).symm

theorem suffix_append_right (s a b : String) (h : s.data <:+ b.data) :
    s.data <:+ (a ++ b).data := by
  obtain ⟨t, ht⟩ := h
  refine ⟨a.data ++ t, ?_⟩
  rw [List.append_assoc, ht]
  exact (string_data_append a b).symm

theorem rectToPS_suffix (r : SVGRect) :
    (" rectfill" : String).data <:+ (rectToPS r).data := by
  unfold rectToPS
  repeat apply suffix_append_right
  exact ⟨[], rfl⟩

theorem convertSVGRectsToPS_filterMap (rects : List SVGRect) :
    rects.filterMap (fun r => if isBlackFill r then some (rectToPS r) else none)
      = (rects.filter isBlackFill).map rectToPS := by
  induction rects with
  | nil => rfl
  | cons r rest ih =>
    by_cases hb : isBlackFill r <;>
      simp [List.filterMap_cons, List.filter_cons, hb, ih]

theorem convertSVGRectsToPS_rectfill_lines (rects : List SVGRect) :
    (convertSVGRectsToPS rects).filter endsRectfill
      = (rects.filter isBlackFill).map rectToPS := by
  simp only [convertSVGRectsToPS, convertSVGRectsToPS_filterMap]
  cases h : (rects.filter isBlackFill).map rectToPS with
  | nil => simp
  | cons a t =>
    have hall : ∀ s ∈ a :: t, endsRectfill s = true := by
      rw [← h]
      intro s hs
      rw [List.mem_map] at hs
      obtain ⟨r, _, rfl⟩ := hs
      exact decide_eq_true (rectToPS_suffix r)
    rw [if_pos (by simp)]
    rw [List.filter_cons_of_neg (by decide), List.filter_cons_of_neg (by decide)]
    rw [List.filter_eq_self]
    exact hall

theorem eps_text_starts (doc : SVGDoc) (code : String) :
    ("%!PS-Adobe-3.0 EPSF-3.0" : String).data <+: (convertSVGToEPS doc code).data := by
  unfold convertSVGToEPS epsLines
  simp only [List.cons_append]
  rw [joinLines_cons_cons]
  exact ⟨_, (string_data_append _ _).symm⟩

theorem eps_text_ends (doc : SVGDoc) (code : String) :
    ("%%EOF" : String).data <:+ (convertSVGToEPS doc code).data := by
  unfold convertSVGToEPS
  have h : epsLines doc code
      = (["%!PS-Adobe-3.0 EPSF-3.0",
          "%%Title: Barcode " ++ code,
          "%%Creator: Barcode Batch Generator",
          "%%BoundingBox: 0 0 " ++ toString (doc.widthAttr.getD 300) ++ " " ++
            toString (doc.heightAttr.getD 100),
          "%%EndComments",
          "",
          "/Times-Roman findfont 12 scalefont setfont",
          "0 setgray",
          "",
          "% Barcode generation from SVG",
          "% This is a simplified EPS conversion",
          "% Original barcode: " ++ code,
          ""]
        ++ convertSVGRectsToPS doc.rects ++ ["", "showpage"]) ++ ["%%EOF"] := by
    unfold epsLines
    simp
  rw [h]
  exact joinLines_last_suffix _ "%%EOF"

/-- C6: for a valid code rendered with `fileFormat = "eps"` the produced EPS
text begins with the line `%!PS-Adobe-3.0 EPSF-3.0` and ends with `%%EOF`, and
the rect-to-PostScript translation emits a `rectfill` drawing call exactly for
the rectangles whose fill is literally `#000000`, `black`, or `#000` (in
order), dropping every other fill. -/
theorem claim6_eps_output (cap : BwipCapability) (req : GenRequest)
    (cfg : BarcodeConfig) (doc : SVGDoc)
    (hf : req.fileFormat = "eps")
    (hc : BARCODE_CONFIGS req.type = some cfg)
    (hsvg : cap.toSVG (mkBwipOptions cfg req) = .ok doc) :
    generateBarcodeWithBwip cap req
      = .ok (replaceExt req.outPath ".eps", .eps (convertSVGToEPS doc req.code)) ∧
    ("%!PS-Adobe-3.0 EPSF-3.0" : String).data <+: (convertSVGToEPS doc req.code).data ∧
    ("%%EOF" : String).data <:+ (convertSVGToEPS doc req.code).data ∧
    (convertSVGRectsToPS doc.rects).filter endsRectfill
      = (doc.rects.filter isBlackFill).map rectToPS := by
  refine ⟨?_, eps_text_starts doc req.code, eps_text_ends doc req.code,
    convertSVGRectsToPS_rectfill_lines doc.rects⟩
  unfold generateBarcodeWithBwip
  rw [hc]
  simp only [hf]
  rw [if_neg (by decide), if_pos (by decide), hsvg]

/-- Witness for C6 at a concrete EPS render of an EAN-13 code whose document
has one black and one white rectangle. -/
theorem claim6_eps_output_witness :
    generateBarcodeWithBwip constOkCap epsReqC6
      = .ok (replaceExt epsReqC6.outPath ".eps",
          .eps (convertSVGToEPS docC6 epsReqC6.code)) ∧
    ("%!PS-Adobe-3.0 EPSF-3.0" : String).data <+: (convertSVGToEPS docC6 epsReqC6.code).data ∧
    ("%%EOF" : String).data <:+ (convertSVGToEPS docC6 epsReqC6.code).data ∧
    (convertSVGRectsToPS docC6.rects).filter endsRectfill
      = (docC6.rects.filter isBlackFill).map rectToPS :=
  claim6_eps_output constOkCap epsReqC6 ean13Config docC6 rfl (by decide) rfl

/-- Counterexample for C1: with a primary raster renderer that fails
(`failBufCap`, message `boom`), the PNG render records the failure immediately
with the primary's message. Under the claim no failure could be recorded here,
because the spec's fallback renderer (`specFallbackRaster`, total by
construction — second conjunct) would have succeeded; the code has no fallback
path at all (main.ts:116-127 rejects directly in the `toBuffer` callback). -/
theorem claim1_counterexample :
    generateBarcodeWithBwip failBufCap pngReqC1 = .error "PNG 바코드 생성 실패: boom" ∧
      (specFallbackRaster pngReqC1.code).length > 0 := by
  constructor
  · rfl
  · decide

/-- C1 (amended): for every PNG render request whose primary raster rendering
fails, the failure is recorded immediately with the primary renderer's message;
no fallback renderer exists or is attempted. -/
theorem claim1_amended (cap : BwipCapability) (req : GenRequest)
    (cfg : BarcodeConfig) (m : String)
    (hfmt : req.fileFormat = "png")
    (hcfg : BARCODE_CONFIGS req.type = some cfg)
    (hbuf : cap.toBuffer (mkBwipOptions cfg req) = .error m) :
    generateBarcodeWithBwip cap req = .error ("PNG 바코드 생성 실패: " ++ m) := by
  unfold generateBarcodeWithBwip
  rw [hcfg]
  simp only [hfmt]
  rw [if_neg (by decide), if_neg (by decide), hbuf]

/-- Witness for the amended C1 at the failing capability. -/
theorem claim1_amended_witness :
    generateBarcodeWithBwip failBufCap pngReqC1
      = .error ("PNG 바코드 생성 실패: " ++ "boom") :=
  claim1_amended failBufCap pngReqC1 itf14Config "boom" rfl (by decide) rfl

theorem previewHandler_cases (cap : BwipCapability) (rd : Except String Unit)
    (req : PreviewReq) (now : Nat) :
    (previewHandler cap rd req now).2 = false ∨
      (∃ m, rd = .error m ∧ previewHandler cap rd req now
        = (.serverError ("바코드 생성 실패: " ++ m), true)) := by
  cases hc : req.code with
  | none => exact Or.inl (by simp [previewHandler, hc])
  | some raw =>
    by_cases ht : (jsTrim raw == "") = true
    · exact Or.inl (by simp [previewHandler, hc, ht])
    · cases hdet : detectBarcodeType (previewClean raw) with
      | none => exact Or.inl (by simp [previewHandler, hc, ht, hdet])
      | some type =>
        by_cases hv : (!validateCode (previewClean raw) type) = true
        · exact Or.inl (by simp [previewHandler, hc, ht, hdet, hv])
        · cases hg : generateBarcodeWithBwip cap
              { code := previewClean raw, type := type,
                heightMM := numOr req.heightMM 32, widthMM := numOr req.widthMM 2,
                outPath := previewFilename req raw now,
                fileFormat := previewFormat req } with
          | error m => exact Or.inl (by simp [previewHandler, hc, ht, hdet, hv, hg])
          | ok v =>
            by_cases hf1 : (previewFormat req == "svg") = true
            · cases rd with
              | error m =>
                refine Or.inr ⟨m, rfl, ?_⟩
                simp [previewHandler, hc, ht, hdet, hv, hg, hf1]
              | ok u => exact Or.inl (by simp [previewHandler, hc, ht, hdet, hv, hg, hf1])
            · by_cases hf2 : (previewFormat req == "eps") = true
              · exact Or.inl (by simp [previewHandler, hc, ht, hdet, hv, hg, hf1, hf2])
              · cases rd with
                | error m =>
                  refine Or.inr ⟨m, rfl, ?_⟩
                  simp [previewHandler, hc, ht, hdet, hv, hg, hf1, hf2]
                | ok u =>
                  exact Or.inl (by simp [previewHandler, hc, ht, hdet, hv, hg, hf1, hf2])

/-- C9 (amended): the temporary preview file is deleted on the success exit
path, but not on every exit path — whenever the handler leaks the file
(second component `true`), it is because the post-creation read-back failed,
and the handler returns the server error with the file still on disk. -/
theorem claim9_amended (cap : BwipCapability) (rd : Except String Unit)
    (req : PreviewReq) (now : Nat) :
    (∀ img c t f, (previewHandler cap rd req now).1 = .success img c t f →
      (previewHandler cap rd req now).2 = false) ∧
    ((previewHandler cap rd req now).2 = true →
      ∃ m, rd = .error m ∧
        (previewHandler cap rd req now).1 = .serverError ("바코드 생성 실패: " ++ m)) := by
  rcases previewHandler_cases cap rd req now with h | ⟨m, hm, hp⟩
  · refine ⟨fun _ _ _ _ _ => h, fun h2 => absurd h2 (by rw [h]; decide)⟩
  · constructor
    · intro img c t f hs
      rw [hp] at hs
      cases hs
    · intro _
      exact ⟨m, hm, by rw [hp]⟩

/-- Counterexample for C9 as stated: when the preview file is written and the
read-back then errors, the handler returns the 500 error with the temporary
file still existing — an exit path on which the file is not deleted (the
`unlinkSync` is only reached on the success path; there is no `finally`). -/
theorem claim9_counterexample :
    previewHandler constOkCap (.error "read failed") previewReqOk 0
      = (.serverError "바코드 생성 실패: read failed", true) := by
  decide

/-- Witness for the amended C9 at the leaking run. -/
theorem claim9_amended_witness :
    ∃ m, (Except.error "read failed" : Except String Unit) = .error m ∧
      (previewHandler constOkCap (.error "read failed") previewReqOk 0).1
        = .serverError ("바코드 생성 실패: " ++ m) :=
  (claim9_amended constOkCap (.error "read failed") previewReqOk 0).2 (by decide)
